import Mathlib

/-!
Verification development for the nevelline-backend payment-link lifecycle.

The definitions below are a shallow embedding of the TypeScript source:
document collections (Mongo) become Lean lists, findOne becomes List.find?
on the collection, document save / findByIdAndUpdate becomes an in-place
update of the first matching element, and monetary amounts become rationals
(the gateway's minor-unit conversion is exact integer arithmetic).
Each definition carries a comment naming the source function it embeds.
-/

namespace Nevelline

/-- Status of a PaymentLink document (models/PaymentLink.ts, status enum). -/
inductive LinkStatus
  | pending
  | completed
  | failed
  | expired
deriving DecidableEq, Repr

/-- Fulfillment status of an Order document (models/Order.ts, status enum). -/
inductive OrderStatus
  | pending
  | processing
  | completed
  | cancelled
deriving DecidableEq, Repr

/-- Payment status of an Order document (models/Order.ts, paymentStatus enum). -/
inductive PaymentStatus
  | pending
  | paid
  | failed
deriving DecidableEq, Repr

/-- A catalog product (models/Product.ts). Stock quantity is an integer:
Mongo `$inc` updates bypass the schema's min-0 validator, so the stored
value can in principle go negative. -/
structure Product where
  id : String
  name : String
  price : ℚ
  image : Option String
  inStock : Bool
  quantity : ℤ
  badge : Option String
deriving DecidableEq, Repr

/-- One line item of an order (models/Order.ts, IOrderItem). -/
structure OrderItem where
  productId : String
  name : String
  price : ℚ
  quantity : ℤ
  image : Option String
  color : Option String
  size : Option String
deriving DecidableEq, Repr

/-- An Order document (models/Order.ts, IOrder); orderType is the literal
string tag "store" or "payment_link" used by the source. -/
structure Order where
  id : String
  orderNumber : String
  orderType : String
  customerName : String
  customerEmail : String
  customerPhone : String
  customerAddress : Option String
  items : List OrderItem
  subtotal : ℚ
  shipping : ℚ
  total : ℚ
  paymentMethod : String
  paymentReference : Option String
  paymentStatus : PaymentStatus
  status : OrderStatus
  notes : Option String
deriving DecidableEq, Repr

/-- A PaymentLink document (models/PaymentLink.ts, IPaymentLink).
Timestamps are abstract natural numbers. -/
structure PaymentLink where
  reference : String
  amount : ℚ
  productId : Option String
  productName : Option String
  description : String
  customerEmail : Option String
  customerName : Option String
  customerPhone : Option String
  quantity : ℤ
  status : LinkStatus
  paidAt : Option ℕ
  verifiedAt : Option ℕ
  expiresAt : Option ℕ
  viewCount : ℤ
  lastViewedAt : Option ℕ
  ipAddresses : List String
deriving DecidableEq, Repr

/-- The customer block of a Paystack verification payload. -/
structure Customer where
  email : Option String
  firstName : Option String
  lastName : Option String
deriving DecidableEq, Repr

/-- The payload returned by utils/paystack.ts verifyPayment (success case) and
carried by webhook events: reference, amount, gateway status string, customer. -/
structure PaymentData where
  reference : String
  amount : ℚ
  status : String
  customer : Option Customer
deriving DecidableEq, Repr

/-- A Paystack webhook event: the event-type string plus its data payload. -/
structure WebhookEvent where
  event : String
  data : PaymentData
deriving DecidableEq, Repr

/-- The persistent state: the three Mongo collections the handlers touch. -/
structure DB where
  products : List Product
  links : List PaymentLink
  orders : List Order
deriving DecidableEq, Repr

/-- Mongoose findOne followed by save: update the first element satisfying
the predicate, leave the rest unchanged. -/
def updateFirst (p : α → Bool) (f : α → α) : List α → List α
  | [] => []
  | x :: xs => if p x then f x :: xs else x :: updateFirst p f xs

/-- PaymentLink.findOne with a reference filter. -/
def findLink (reference : String) (db : DB) : Option PaymentLink :=
  db.links.find? fun l => decide (l.reference = reference)

/-- Order.findOne with a paymentReference filter. -/
def findOrderByRef (reference : String) (db : DB) : Option Order :=
  db.orders.find? fun o => decide (o.paymentReference = some reference)

/-- Product.findById on a list of products. -/
def findProduct (pid : String) (ps : List Product) : Option Product :=
  ps.find? fun p => decide (p.id = pid)

/-- JavaScript string fallback: a || b, where the empty string is falsy. -/
def jsOr (a b : String) : String :=
  if a = "" then b else a

/-- JavaScript coercion of a possibly-undefined string, where undefined and
the empty string behave alike in a boolean position. -/
def optStr (a : Option String) : String :=
  a.getD ""

/-- Item list of an order derived from a payment link
(paymentController.ts createOrderFromPaymentLink, product/custom branch).
The item price is the link amount, not the unit product price. -/
def linkOrderItems (link : PaymentLink) (ps : List Product) : List OrderItem :=
  match link.productId with
  | some pid =>
    match findProduct pid ps with
    | some product =>
      [{ productId := product.id, name := product.name, price := link.amount,
         quantity := link.quantity, image := product.image, color := none, size := none }]
    | none =>
      [{ productId := "custom-payment",
         name := jsOr (optStr link.productName) (jsOr link.description "Custom Payment"),
         price := link.amount, quantity := link.quantity,
         image := none, color := none, size := none }]
  | none =>
    [{ productId := "custom-payment",
       name := jsOr (optStr link.productName) (jsOr link.description "Custom Payment"),
       price := link.amount, quantity := link.quantity,
       image := none, color := none, size := none }]

/-- Stock adjustment performed by createOrderFromPaymentLink when the link is
product-backed: Product.findByIdAndUpdate with an $inc on quantity and a $set
of inStock and badge computed from the populated snapshot. -/
def applyLinkStock (link : PaymentLink) (ps : List Product) : List Product :=
  match link.productId with
  | some pid =>
    match findProduct pid ps with
    | some product =>
      updateFirst (fun p => decide (p.id = pid))
        (fun p => { p with
          quantity := p.quantity - link.quantity,
          inStock := decide (0 < max 0 (product.quantity - link.quantity)),
          badge := if max 0 (product.quantity - link.quantity) ≤ 0
                   then some "SOLD OUT" else product.badge }) ps
    | none => ps
  | none => ps

/-- Customer name resolution in createOrderFromPaymentLink: the Paystack
first and last name when both are truthy, else the link's stored name. -/
def linkCustomerName (pd : PaymentData) (link : PaymentLink) : String :=
  if optStr (pd.customer.bind Customer.firstName) ≠ "" ∧
     optStr (pd.customer.bind Customer.lastName) ≠ "" then
    String.trim (optStr (pd.customer.bind Customer.firstName) ++ " " ++
                 optStr (pd.customer.bind Customer.lastName))
  else optStr link.customerName

/-- The Order document built by createOrderFromPaymentLink when no order with
this payment reference exists yet. Fresh identifiers are parameters since the
source generates them from the clock and a random suffix. -/
def newLinkOrder (oid ordNum reference : String) (pd : PaymentData)
    (link : PaymentLink) (ps : List Product) : Order :=
  { id := oid
    orderNumber := ordNum
    orderType := "payment_link"
    customerName := linkCustomerName pd link
    customerEmail := jsOr (optStr (pd.customer.bind Customer.email)) (optStr link.customerEmail)
    customerPhone := optStr link.customerPhone
    customerAddress := none
    items := linkOrderItems link ps
    subtotal := pd.amount / 100
    shipping := 0
    total := pd.amount / 100
    paymentMethod := "paystack"
    paymentReference := some reference
    paymentStatus := PaymentStatus.paid
    status := OrderStatus.processing
    notes := some ("Payment Link Order - " ++ jsOr link.description "No description") }

/-- Derive-Order step (paymentController.ts createOrderFromPaymentLink):
look up the link; if an order with this payment reference already exists,
flip it to paid and processing when not yet paid and stop; otherwise build a
new order from the link, adjust product stock for product-backed links, and
append the order. Email dispatch is fire-and-forget and does not change state. -/
def createOrderFromPaymentLink (oid ordNum reference : String) (pd : PaymentData)
    (db : DB) : DB :=
  match findLink reference db with
  | none => db
  | some link =>
    match findOrderByRef reference db with
    | some existingOrder =>
      if existingOrder.paymentStatus ≠ PaymentStatus.paid then
        let orders1 := updateFirst (fun o => decide (o.paymentReference = some reference))
          (fun o => { o with paymentStatus := PaymentStatus.paid,
                             status := OrderStatus.processing }) db.orders
        { db with orders := orders1 }
      else db
    | none =>
      { db with
        products := applyLinkStock link db.products,
        orders := db.orders ++ [newLinkOrder oid ordNum reference pd link db.products] }

/-- Shared link transition used by the verify success path and the webhook
charge-success handler: if the link exists and is not already completed,
set status completed and stamp paidAt and verifiedAt. -/
def markLinkCompleted (reference : String) (now : ℕ)
    (links : List PaymentLink) : List PaymentLink :=
  match links.find? (fun l => decide (l.reference = reference)) with
  | some link =>
    if link.status ≠ LinkStatus.completed then
      updateFirst (fun l => decide (l.reference = reference))
        (fun l => { l with status := LinkStatus.completed,
                           paidAt := some now, verifiedAt := some now }) links
    else links
  | none => links

/-- Link transition of the failure paths: if the link exists, set status
failed. The source has no guard on the current status here. -/
def failLink (reference : String) (links : List PaymentLink) : List PaymentLink :=
  match links.find? (fun l => decide (l.reference = reference)) with
  | some _ =>
    updateFirst (fun l => decide (l.reference = reference))
      (fun l => { l with status := LinkStatus.failed }) links
  | none => links

/-- Order transition of the webhook charge-success handler: if an order with
this payment reference exists and is not yet paid, mark it paid and processing. -/
def markOrderPaid (reference : String) (orders : List Order) : List Order :=
  match orders.find? (fun o => decide (o.paymentReference = some reference)) with
  | some order =>
    if order.paymentStatus ≠ PaymentStatus.paid then
      updateFirst (fun o => decide (o.paymentReference = some reference))
        (fun o => { o with paymentStatus := PaymentStatus.paid,
                           status := OrderStatus.processing }) orders
    else orders
  | none => orders

/-- Order transition of the webhook charge-failed handler: if an order with
this payment reference exists, set its payment status to failed. -/
def failOrder (reference : String) (orders : List Order) : List Order :=
  match orders.find? (fun o => decide (o.paymentReference = some reference)) with
  | some _ =>
    updateFirst (fun o => decide (o.paymentReference = some reference))
      (fun o => { o with paymentStatus := PaymentStatus.failed }) orders
  | none => orders

/-- Public verify endpoint (paymentController.ts verifyPaymentTransaction),
after the gateway call: given the verification outcome for a reference,
on gateway success mark the link completed and run Derive-Order; on gateway
failed mark the link failed; otherwise leave the state untouched. The first
component is the HTTP status the handler responds with. -/
def verifyPaymentTransaction (verification : Option PaymentData) (reference : String)
    (now : ℕ) (oid ordNum : String) (db : DB) : ℕ × DB :=
  match verification with
  | none => (400, db)
  | some pd =>
    if pd.status = "success" then
      (200, createOrderFromPaymentLink oid ordNum reference pd
        { db with links := markLinkCompleted reference now db.links })
    else if pd.status = "failed" then
      (200, { db with links := failLink reference db.links })
    else
      (200, db)

/-- Webhook charge-success handler (paymentController.ts handleSuccessfulCharge):
marks an existing order paid and the link completed; it creates nothing. -/
def handleSuccessfulCharge (now : ℕ) (data : PaymentData) (db : DB) : DB :=
  { db with orders := markOrderPaid data.reference db.orders,
            links := markLinkCompleted data.reference now db.links }

/-- Webhook charge-failed handler (paymentController.ts handleFailedCharge). -/
def handleFailedCharge (data : PaymentData) (db : DB) : DB :=
  { db with orders := failOrder data.reference db.orders,
            links := failLink data.reference db.links }

/-- Webhook endpoint (paymentController.ts handlePaystackWebhook). The
HMAC-SHA512 over the serialized body is modelled by an abstract function
computeHmacSha512 from the secret and the event; the handler compares its
hex digest to the x-paystack-signature header with exact string equality
and dispatches on the event type only when they match. -/
def handlePaystackWebhook (computeHmacSha512 : String → WebhookEvent → String)
    (secretKey signatureHeader : String) (event : WebhookEvent)
    (now : ℕ) (db : DB) : ℕ × DB :=
  if computeHmacSha512 secretKey event = signatureHeader then
    if event.event = "charge.success" then
      (200, handleSuccessfulCharge now event.data db)
    else if event.event = "charge.failed" then
      (200, handleFailedCharge event.data db)
    else
      (200, db)
  else
    (400, db)

/-- View tracking endpoint (paymentController.ts trackPaymentLinkView):
bump viewCount, stamp lastViewedAt, record the client IP when new. -/
def trackPaymentLinkView (reference clientIP : String) (now : ℕ) (db : DB) : ℕ × DB :=
  match findLink reference db with
  | none => (404, db)
  | some _ =>
    let links1 := updateFirst (fun l => decide (l.reference = reference))
      (fun l => { l with
        viewCount := l.viewCount + 1,
        lastViewedAt := some now,
        ipAddresses := if clientIP ∈ l.ipAddresses then l.ipAddresses
                       else l.ipAddresses ++ [clientIP] }) db.links
    (200, { db with links := links1 })

/-- Stock restoration applied per item by cancelOrder: quantity raised by the
item quantity, inStock forced true, a SOLD OUT badge cleared. Items whose
product no longer exists are skipped, as in the source. -/
def restoreProductStock (item : OrderItem) (ps : List Product) : List Product :=
  updateFirst (fun p => decide (p.id = item.productId))
    (fun p => { p with
      quantity := p.quantity + item.quantity,
      inStock := true,
      badge := if p.badge = some "SOLD OUT" then none else p.badge }) ps

/-- Left-to-right stock restoration over all items of an order. -/
def restoreAllStock (items : List OrderItem) (ps : List Product) : List Product :=
  items.foldl (fun acc item => restoreProductStock item acc) ps

/-- Order cancellation (orderController.ts cancelOrder): reject missing
orders with 404 and completed or cancelled orders with 400; otherwise restore
stock for every item and set the order status to cancelled. -/
def cancelOrder (orderId : String) (db : DB) : ℕ × DB :=
  match db.orders.find? (fun o => decide (o.id = orderId)) with
  | none => (404, db)
  | some order =>
    if order.status = OrderStatus.completed ∨ order.status = OrderStatus.cancelled then
      (400, db)
    else
      (200, { db with
        products := restoreAllStock order.items db.products,
        orders := updateFirst (fun o => decide (o.id = orderId))
          (fun o => { o with status := OrderStatus.cancelled }) db.orders })

/-- One line of a store-order request body (orderController.ts createOrder). -/
structure CartItem where
  productId : String
  quantity : ℤ
  color : Option String
  size : Option String
deriving DecidableEq, Repr

/-- The store-order request body (orderController.ts createOrder). -/
structure StoreOrderRequest where
  customerName : String
  customerEmail : String
  customerPhone : String
  customerAddress : Option String
  items : List CartItem
  shipping : ℚ
  paymentMethod : String
  paymentReference : Option String
  notes : Option String
deriving DecidableEq, Repr

/-- Validation loop of createOrder: re-fetch each product, reject missing
products and insufficient stock, snapshot the authoritative price, and
accumulate the server-side subtotal. -/
def validateItems (ps : List Product) : List CartItem → Option (List OrderItem × ℚ)
  | [] => some ([], 0)
  | item :: rest =>
    match findProduct item.productId ps with
    | none => none
    | some product =>
      if product.inStock = false ∨ product.quantity < item.quantity then none
      else
        match validateItems ps rest with
        | none => none
        | some (vitems, sub) =>
          some ({ productId := product.id, name := product.name, price := product.price,
                  quantity := item.quantity, image := product.image,
                  color := item.color, size := item.size } :: vitems,
                product.price * (item.quantity : ℚ) + sub)

/-- Stock decrement loop of createOrder: $inc the quantity down, then
re-fetch and force inStock false plus a SOLD OUT badge on reaching zero. -/
def decrementStoreStock (items : List OrderItem) (ps : List Product) : List Product :=
  items.foldl (fun acc item =>
    let acc1 := updateFirst (fun p => decide (p.id = item.productId))
      (fun p => { p with quantity := p.quantity - item.quantity }) acc
    match findProduct item.productId acc1 with
    | some updated =>
      if updated.quantity = 0 then
        updateFirst (fun p => decide (p.id = item.productId))
          (fun p => { p with inStock := false, badge := some "SOLD OUT" }) acc1
      else acc1
    | none => acc1) ps

/-- Store-order creation (orderController.ts createOrder): validate required
fields and every line against the live catalog, compute totals strictly
server-side, persist the order, then decrement stock. -/
def createOrder (req : StoreOrderRequest) (oid ordNum : String) (db : DB) : ℕ × DB :=
  if req.customerName = "" ∨ req.customerEmail = "" ∨ req.customerPhone = "" ∨
     req.paymentMethod = "" then
    (400, db)
  else if req.items = [] then
    (400, db)
  else
    match validateItems db.products req.items with
    | none => (400, db)
    | some (vitems, sub) =>
      let order : Order :=
        { id := oid, orderNumber := ordNum, orderType := "store",
          customerName := req.customerName, customerEmail := req.customerEmail,
          customerPhone := req.customerPhone, customerAddress := req.customerAddress,
          items := vitems, subtotal := sub, shipping := req.shipping,
          total := sub + req.shipping, paymentMethod := req.paymentMethod,
          paymentReference := req.paymentReference,
          paymentStatus := PaymentStatus.pending,
          status := OrderStatus.pending, notes := req.notes }
      (201, { db with
        orders := db.orders ++ [order],
        products := decrementStoreStock vitems db.products })

/-- Major-to-minor-unit conversion at link creation
(utils/paystack.ts createPaymentLink): Math.round of the amount times 100. -/
def amountInKobo (a : ℚ) : ℤ :=
  round (a * 100)

/-- Minor-to-major-unit conversion at verification
(utils/paystack.ts verifyPayment): the gateway amount divided by 100. -/
def koboToNaira (k : ℤ) : ℚ :=
  (k : ℚ) / 100

/-- Monetary consistency of a single order: the total splits into subtotal
plus shipping, and the subtotal is the sum of price times quantity over the
captured items. -/
def orderTotalsOk (o : Order) : Prop :=
  o.total = o.subtotal + o.shipping ∧
  o.subtotal = (o.items.map fun i => i.price * (i.quantity : ℚ)).sum

theorem updateFirst_length (p : α → Bool) (f : α → α) (l : List α) :
    (updateFirst p f l).length = l.length := by
  induction l with
  | nil => rfl
  | cons x xs ih =>
    simp only [updateFirst]
    split <;> simp [ih]

theorem find?_updateFirst_pres (p : α → Bool) (f : α → α)
    (hf : ∀ a, p (f a) = p a) (l : List α) :
    (updateFirst p f l).find? p = (l.find? p).map f := by
  induction l with
  | nil => rfl
  | cons x xs ih =>
    simp only [updateFirst]
    by_cases h : p x
    · rw [if_pos h, List.find?_cons_of_pos _ ((hf x).trans h),
        List.find?_cons_of_pos _ h]
      rfl
    · rw [if_neg (by simp [h]), List.find?_cons_of_neg _ (by simp [h]),
        List.find?_cons_of_neg _ (by simp [h]), ih]

theorem find?_updateFirst_of_ne (p q : α → Bool) (f : α → α)
    (hq : ∀ a, q (f a) = q a) (hpq : ∀ a, p a = true → q a = false) (l : List α) :
    (updateFirst p f l).find? q = l.find? q := by
  induction l with
  | nil => rfl
  | cons x xs ih =>
    simp only [updateFirst]
    by_cases h : p x
    · have hqx : q x = false := hpq x h
      rw [if_pos h, List.find?_cons_of_neg _ (by simp [hq x, hqx]),
        List.find?_cons_of_neg _ (by simp [hqx])]
    · by_cases h2 : q x
      · rw [if_neg (by simp [h]), List.find?_cons_of_pos _ h2,
          List.find?_cons_of_pos _ h2]
      · rw [if_neg (by simp [h]), List.find?_cons_of_neg _ (by simp [h2]),
          List.find?_cons_of_neg _ (by simp [h2]), ih]

theorem forall_mem_updateFirst {P : α → Prop} (p : α → Bool) (f : α → α) (l : List α)
    (h1 : ∀ a ∈ l, P a) (h2 : ∀ a ∈ l, P (f a)) :
    ∀ b ∈ updateFirst p f l, P b := by
  induction l with
  | nil => simp [updateFirst]
  | cons x xs ih =>
    intro b hb
    simp only [updateFirst] at hb
    by_cases h : p x
    · rw [if_pos h] at hb
      rcases List.mem_cons.mp hb with h' | h'
      · exact h' ▸ h2 x (List.mem_cons_self x xs)
      · exact h1 b (List.mem_cons_of_mem x h')
    · rw [if_neg (by simp [h])] at hb
      rcases List.mem_cons.mp hb with h' | h'
      · exact h' ▸ h1 x (List.mem_cons_self x xs)
      · exact ih (fun a ha => h1 a (List.mem_cons_of_mem x ha))
          (fun a ha => h2 a (List.mem_cons_of_mem x ha)) b h'

theorem find?_append_of_none (p : α → Bool) (l₁ l₂ : List α)
    (h : l₁.find? p = none) : (l₁ ++ l₂).find? p = l₂.find? p := by
  induction l₁ with
  | nil => rfl
  | cons x xs ih =>
    rw [List.find?_cons] at h
    cases hx : p x with
    | true => rw [hx] at h; exact absurd h (by simp)
    | false =>
      rw [hx] at h
      rw [List.cons_append, List.find?_cons_of_neg _ (by simp [hx]), ih h]

theorem createOrderFromPaymentLink_creates (oid n r : String) (pd : PaymentData)
    (db : DB) (link : PaymentLink)
    (hl : findLink r db = some link) (hno : findOrderByRef r db = none) :
    createOrderFromPaymentLink oid n r pd db =
      { db with products := applyLinkStock link db.products,
                orders := db.orders ++ [newLinkOrder oid n r pd link db.products] } := by
  unfold createOrderFromPaymentLink
  rw [hl, hno]

theorem createOrderFromPaymentLink_of_paid (oid n r : String) (pd : PaymentData)
    (db : DB) (order : Order)
    (ho : findOrderByRef r db = some order)
    (hp : order.paymentStatus = PaymentStatus.paid) :
    createOrderFromPaymentLink oid n r pd db = db := by
  unfold createOrderFromPaymentLink
  cases hfl : findLink r db with
  | none => rfl
  | some link =>
    rw [ho]
    simp [hp]

/-- C1: with a stored completed PaymentLink for reference r and no existing
order for r, running the Derive-Order step createOrderFromPaymentLink leaves
exactly one order with paymentReference r, and running it again with the same
successful verification payload is a no-op on the whole state rather than an
error or a second creation. -/
theorem c1_deriveOrder_idempotent (r oid1 n1 oid2 n2 : String) (pd : PaymentData)
    (db : DB) (link : PaymentLink)
    (hlink : findLink r db = some link) (hcomp : link.status = LinkStatus.completed)
    (hno : findOrderByRef r db = none) :
    (createOrderFromPaymentLink oid1 n1 r pd db).orders.countP
        (fun o => decide (o.paymentReference = some r)) = 1 ∧
    createOrderFromPaymentLink oid2 n2 r pd (createOrderFromPaymentLink oid1 n1 r pd db) =
      createOrderFromPaymentLink oid1 n1 r pd db := by
  have hdb1 := createOrderFromPaymentLink_creates oid1 n1 r pd db link hlink hno
  have h0 : db.orders.countP (fun o => decide (o.paymentReference = some r)) = 0 := by
    rw [List.countP_eq_zero]
    intro o ho
    have := List.find?_eq_none.mp hno o ho
    simpa using this
  constructor
  · rw [hdb1]
    show (db.orders ++ [newLinkOrder oid1 n1 r pd link db.products]).countP _ = 1
    rw [List.countP_append, h0]
    simp [newLinkOrder, List.countP_cons]
  · have hfo : findOrderByRef r (createOrderFromPaymentLink oid1 n1 r pd db) =
        some (newLinkOrder oid1 n1 r pd link db.products) := by
      rw [hdb1]
      show (db.orders ++ [newLinkOrder oid1 n1 r pd link db.products]).find? _ = _
      rw [find?_append_of_none _ _ _ hno]
      simp [newLinkOrder]
    exact createOrderFromPaymentLink_of_paid oid2 n2 r pd _ _ hfo rfl

/-- Sample catalog product used to instantiate the theorems. -/
def sampleProduct : Product :=
  { id := "p1", name := "Shirt", price := 5000, image := some "img",
    inStock := true, quantity := 10, badge := none }

/-- Sample product-backed payment link, quantity 2, already completed. -/
def sampleLink : PaymentLink :=
  { reference := "PAY-X", amount := 10000, productId := some "p1",
    productName := some "Shirt", description := "Shirt order",
    customerEmail := some "ada@shop.test", customerName := some "Ada",
    customerPhone := none, quantity := 2, status := LinkStatus.completed,
    paidAt := none, verifiedAt := none, expiresAt := some 100,
    viewCount := 0, lastViewedAt := none, ipAddresses := ["10.0.0.1"] }

/-- Sample state: one product, one completed link, no orders. -/
def sampleDB : DB :=
  { products := [sampleProduct], links := [sampleLink], orders := [] }

/-- Sample successful verification payload for the sample link. -/
def samplePd : PaymentData :=
  { reference := "PAY-X", amount := 10000, status := "success", customer := none }

/-- Witness for C1 at the sample state. -/
theorem c1_witness :
    (createOrderFromPaymentLink "o1" "N1" "PAY-X" samplePd sampleDB).orders.countP
        (fun o => decide (o.paymentReference = some "PAY-X")) = 1 ∧
    createOrderFromPaymentLink "o2" "N2" "PAY-X" samplePd
        (createOrderFromPaymentLink "o1" "N1" "PAY-X" samplePd sampleDB) =
      createOrderFromPaymentLink "o1" "N1" "PAY-X" samplePd sampleDB :=
  c1_deriveOrder_idempotent "PAY-X" "o1" "N1" "o2" "N2" samplePd sampleDB sampleLink
    (by rfl) (by rfl) (by rfl)

theorem find_markLinkCompleted (r : String) (now : ℕ) (links : List PaymentLink) :
    (markLinkCompleted r now links).find? (fun l => decide (l.reference = r)) =
      (links.find? (fun l => decide (l.reference = r))).map
        (fun l => if l.status ≠ LinkStatus.completed
                  then { l with status := LinkStatus.completed, paidAt := some now,
                                verifiedAt := some now }
                  else l) := by
  cases h : links.find? (fun l => decide (l.reference = r)) with
  | none => simp [markLinkCompleted, h]
  | some link =>
    simp only [markLinkCompleted, h]
    by_cases hc : link.status = LinkStatus.completed
    · simp only [hc, ne_eq, not_true_eq_false, if_false, Option.map_some', if_neg]
      exact h.trans (by simp)
    · have hu := find?_updateFirst_pres (fun l => decide (l.reference = r))
        (fun l => { l with status := LinkStatus.completed, paidAt := some now,
                           verifiedAt := some now }) (fun a => rfl) links
      rw [if_pos hc, hu, h]
      simp [hc]

theorem find_markOrderPaid (r : String) (orders : List Order) :
    (markOrderPaid r orders).find? (fun o => decide (o.paymentReference = some r)) =
      (orders.find? (fun o => decide (o.paymentReference = some r))).map
        (fun o => if o.paymentStatus ≠ PaymentStatus.paid
                  then { o with paymentStatus := PaymentStatus.paid,
                                status := OrderStatus.processing }
                  else o) := by
  cases h : orders.find? (fun o => decide (o.paymentReference = some r)) with
  | none => simp [markOrderPaid, h]
  | some o =>
    simp only [markOrderPaid, h]
    by_cases hp : o.paymentStatus = PaymentStatus.paid
    · simp only [hp, ne_eq, not_true_eq_false, if_false, Option.map_some', if_neg]
      exact h.trans (by simp)
    · have hu := find?_updateFirst_pres (fun o => decide (o.paymentReference = some r))
        (fun o => { o with paymentStatus := PaymentStatus.paid,
                           status := OrderStatus.processing }) (fun a => rfl) orders
      rw [if_pos hp, hu, h]
      simp [hp]

theorem markOrderPaid_length (r : String) (orders : List Order) :
    (markOrderPaid r orders).length = orders.length := by
  cases h : orders.find? (fun o => decide (o.paymentReference = some r)) with
  | none => simp [markOrderPaid, h]
  | some o =>
    simp only [markOrderPaid, h]
    split
    · exact updateFirst_length _ _ _
    · rfl

/-- Counterexample to C2: a pending link and an empty order collection; the
validly signed charge.success webhook completes the link but derives no
order — the orders collection stays empty. -/
def c2db : DB :=
  { products := [sampleProduct],
    links := [{ sampleLink with status := LinkStatus.pending }],
    orders := [] }

/-- Sample webhook event carrying the successful charge for the sample link. -/
def c2event : WebhookEvent :=
  { event := "charge.success", data := samplePd }

/-- C2 counterexample: handling a validly signed charge.success webhook for a
pending link with no existing order completes the link yet creates no Order,
refuting the claim that a derived Order is created when none exists. -/
theorem c2_counterexample :
    ((handlePaystackWebhook (fun _ _ => "sig") "secret" "sig" c2event 5 c2db).2).orders = [] ∧
    (findLink "PAY-X"
        ((handlePaystackWebhook (fun _ _ => "sig") "secret" "sig" c2event 5 c2db).2)).map
      PaymentLink.status = some LinkStatus.completed :=
  ⟨rfl, rfl⟩

/-- C2 amended: a validly signed charge.success webhook marks the stored link
completed (stamping paidAt and verifiedAt) when it is not already completed
and flips an existing unpaid order to paid and processing, but it never
creates an Order: the orders collection keeps its length, so when no order
with the reference exists none comes into being. -/
theorem c2_amended_webhook_no_order_creation
    (computeHmac : String → WebhookEvent → String) (secret sig : String)
    (ev : WebhookEvent) (now : ℕ) (db : DB) (link : PaymentLink)
    (hsig : computeHmac secret ev = sig) (hev : ev.event = "charge.success")
    (hl : findLink ev.data.reference db = some link)
    (hnc : link.status ≠ LinkStatus.completed) :
    (handlePaystackWebhook computeHmac secret sig ev now db).1 = 200 ∧
    ((handlePaystackWebhook computeHmac secret sig ev now db).2).orders.length =
      db.orders.length ∧
    findLink ev.data.reference ((handlePaystackWebhook computeHmac secret sig ev now db).2) =
      some { link with status := LinkStatus.completed, paidAt := some now,
                       verifiedAt := some now } ∧
    (∀ order, findOrderByRef ev.data.reference db = some order →
      order.paymentStatus ≠ PaymentStatus.paid →
      findOrderByRef ev.data.reference
          ((handlePaystackWebhook computeHmac secret sig ev now db).2) =
        some { order with paymentStatus := PaymentStatus.paid,
                          status := OrderStatus.processing }) := by
  have hw : handlePaystackWebhook computeHmac secret sig ev now db =
      (200, handleSuccessfulCharge now ev.data db) := by
    unfold handlePaystackWebhook
    rw [if_pos hsig, if_pos hev]
  rw [hw]
  unfold findLink at hl
  refine ⟨rfl, markOrderPaid_length _ _, ?_, ?_⟩
  · show (markLinkCompleted ev.data.reference now db.links).find? _ = _
    rw [find_markLinkCompleted, hl]
    simp [hnc]
  · intro order ho hp
    unfold findOrderByRef at ho
    show (markOrderPaid ev.data.reference db.orders).find? _ = _
    rw [find_markOrderPaid, ho]
    simp [hp]

/-- Witness for C2's amended theorem at the sample state. -/
theorem c2_witness :
    (handlePaystackWebhook (fun _ _ => "sig") "secret" "sig" c2event 5 c2db).1 = 200 ∧
    ((handlePaystackWebhook (fun _ _ => "sig") "secret" "sig" c2event 5 c2db).2).orders.length =
      c2db.orders.length ∧
    findLink "PAY-X" ((handlePaystackWebhook (fun _ _ => "sig") "secret" "sig" c2event 5 c2db).2) =
      some { sampleLink with status := LinkStatus.completed, paidAt := some 5,
                             verifiedAt := some 5 } :=
  have h := c2_amended_webhook_no_order_creation (fun _ _ => "sig") "secret" "sig" c2event 5 c2db
    { sampleLink with status := LinkStatus.pending } rfl rfl (by rfl) (by decide)
  ⟨h.1, h.2.1, h.2.2.1⟩

/-- C7: the webhook handler accepts a request only on exact signature match;
whenever the computed digest differs from the x-paystack-signature header it
responds 400 and performs no state change at all. -/
theorem c7_webhook_signature_guard (computeHmac : String → WebhookEvent → String)
    (secret sig : String) (ev : WebhookEvent) (now : ℕ) (db : DB)
    (h : computeHmac secret ev ≠ sig) :
    handlePaystackWebhook computeHmac secret sig ev now db = (400, db) := by
  unfold handlePaystackWebhook
  rw [if_neg h]

/-- Witness for C7: a deliberately mismatched signature is rejected with 400
and the sample state is untouched. -/
theorem c7_witness :
    handlePaystackWebhook (fun _ _ => "aa") "secret" "bb" c2event 0 sampleDB =
      (400, sampleDB) :=
  c7_webhook_signature_guard (fun _ _ => "aa") "secret" "bb" c2event 0 sampleDB (by decide)

/-- C10: tracking a view of an existing link responds 200, bumps viewCount by
one, stamps lastViewedAt, appends the caller IP only when it is new (and so
preserves duplicate-freeness of ipAddresses), leaves every other link field
as found, and does not touch orders or products. -/
theorem c10_trackView (r ip : String) (now : ℕ) (db : DB) (link : PaymentLink)
    (hfind : findLink r db = some link) :
    (trackPaymentLinkView r ip now db).1 = 200 ∧
    findLink r (trackPaymentLinkView r ip now db).2 =
      some { link with viewCount := link.viewCount + 1,
                       lastViewedAt := some now,
                       ipAddresses := if ip ∈ link.ipAddresses then link.ipAddresses
                                      else link.ipAddresses ++ [ip] } ∧
    (trackPaymentLinkView r ip now db).2.orders = db.orders ∧
    (trackPaymentLinkView r ip now db).2.products = db.products ∧
    (link.ipAddresses.Nodup →
      (if ip ∈ link.ipAddresses then link.ipAddresses
       else link.ipAddresses ++ [ip]).Nodup) := by
  have ht : trackPaymentLinkView r ip now db =
      (200, { db with links := (updateFirst (fun l => decide (l.reference = r))
          (fun l => { l with
            viewCount := l.viewCount + 1,
            lastViewedAt := some now,
            ipAddresses := if ip ∈ l.ipAddresses then l.ipAddresses
                           else l.ipAddresses ++ [ip] }) db.links) }) := by
    unfold trackPaymentLinkView
    rw [hfind]
  rw [ht]
  unfold findLink at hfind
  refine ⟨rfl, ?_, rfl, rfl, ?_⟩
  · have hu := find?_updateFirst_pres (fun l => decide (l.reference = r))
      (fun l => { l with
        viewCount := l.viewCount + 1,
        lastViewedAt := some now,
        ipAddresses := if ip ∈ l.ipAddresses then l.ipAddresses
                       else l.ipAddresses ++ [ip] }) (fun a => rfl) db.links
    show (updateFirst _ _ db.links).find? _ = _
    rw [hu, hfind]
    rfl
  · intro hnd
    by_cases hip : ip ∈ link.ipAddresses
    · rw [if_pos hip]; exact hnd
    · rw [if_neg hip]
      simp [List.nodup_append, hnd, hip]

/-- Witness for C10 at the sample state, with an IP not yet recorded. -/
theorem c10_witness :
    (trackPaymentLinkView "PAY-X" "10.0.0.2" 7 sampleDB).1 = 200 ∧
    findLink "PAY-X" (trackPaymentLinkView "PAY-X" "10.0.0.2" 7 sampleDB).2 =
      some { sampleLink with viewCount := sampleLink.viewCount + 1,
                             lastViewedAt := some 7,
                             ipAddresses := if "10.0.0.2" ∈ sampleLink.ipAddresses
                                            then sampleLink.ipAddresses
                                            else sampleLink.ipAddresses ++ ["10.0.0.2"] } ∧
    (trackPaymentLinkView "PAY-X" "10.0.0.2" 7 sampleDB).2.orders = sampleDB.orders ∧
    (trackPaymentLinkView "PAY-X" "10.0.0.2" 7 sampleDB).2.products = sampleDB.products ∧
    (if "10.0.0.2" ∈ sampleLink.ipAddresses then sampleLink.ipAddresses
     else sampleLink.ipAddresses ++ ["10.0.0.2"]).Nodup :=
  have h := c10_trackView "PAY-X" "10.0.0.2" 7 sampleDB sampleLink (by rfl)
  ⟨h.1, h.2.1, h.2.2.1, h.2.2.2.1, h.2.2.2.2 (by decide)⟩

theorem find_failLink (r : String) (links : List PaymentLink) :
    (failLink r links).find? (fun l => decide (l.reference = r)) =
      (links.find? (fun l => decide (l.reference = r))).map
        (fun l => { l with status := LinkStatus.failed }) := by
  cases h : links.find? (fun l => decide (l.reference = r)) with
  | none => simp [failLink, h]
  | some link =>
    simp only [failLink, h]
    have hu := find?_updateFirst_pres (fun l => decide (l.reference = r))
      (fun l => { l with status := LinkStatus.failed }) (fun a => rfl) links
    rw [hu, h]

theorem verify_success_eq (pd : PaymentData) (r : String) (now : ℕ) (oid n : String)
    (db : DB) (hs : pd.status = "success") :
    verifyPaymentTransaction (some pd) r now oid n db =
      (200, createOrderFromPaymentLink oid n r pd
        { db with links := markLinkCompleted r now db.links }) := by
  show (if pd.status = "success" then
      (200, createOrderFromPaymentLink oid n r pd
        { db with links := markLinkCompleted r now db.links })
    else if pd.status = "failed" then
      (200, { db with links := failLink r db.links })
    else (200, db)) = _
  rw [if_pos hs]

theorem verify_failed_eq (pd : PaymentData) (r : String) (now : ℕ) (oid n : String)
    (db : DB) (hf : pd.status = "failed") :
    verifyPaymentTransaction (some pd) r now oid n db =
      (200, { db with links := failLink r db.links }) := by
  show (if pd.status = "success" then
      (200, createOrderFromPaymentLink oid n r pd
        { db with links := markLinkCompleted r now db.links })
    else if pd.status = "failed" then
      (200, { db with links := failLink r db.links })
    else (200, db)) = _
  rw [if_neg (by rw [hf]; decide), if_pos hf]

theorem createOrderFromPaymentLink_links (oid n r : String) (pd : PaymentData) (db : DB) :
    (createOrderFromPaymentLink oid n r pd db).links = db.links := by
  unfold createOrderFromPaymentLink
  cases h : findLink r db with
  | none => rfl
  | some link =>
    cases h2 : findOrderByRef r db with
    | some o =>
      by_cases hp : o.paymentStatus = PaymentStatus.paid
      · simp [hp]
      · simp [hp]
    | none => rfl

/-- Counterexample to C3: in the sample state the link for PAY-X is stored as
completed, and both the verify call with a failed gateway report and the
charge.failed webhook handler downgrade it to failed. -/
theorem c3_counterexample :
    (findLink "PAY-X" ((verifyPaymentTransaction (some { samplePd with status := "failed" })
        "PAY-X" 5 "o1" "N1" sampleDB).2)).map PaymentLink.status =
      some LinkStatus.failed ∧
    (findLink "PAY-X" (handleFailedCharge samplePd sampleDB)).map PaymentLink.status =
      some LinkStatus.failed :=
  ⟨rfl, rfl⟩

/-- C3 amended: the failure transitions carry no guard on the current status:
when the gateway reports failed to the verify endpoint, or a charge.failed
webhook event arrives, the stored link's status becomes failed even when it
is currently completed — a completed link can be downgraded. -/
theorem c3_amended_failed_downgrades_completed (r : String) (pd : PaymentData)
    (now : ℕ) (oid n : String) (db : DB) (link : PaymentLink)
    (hl : findLink r db = some link)
    (hc : link.status = LinkStatus.completed)
    (hf : pd.status = "failed") (hr : pd.reference = r) :
    findLink r ((verifyPaymentTransaction (some pd) r now oid n db).2) =
      some { link with status := LinkStatus.failed } ∧
    findLink r (handleFailedCharge pd db) =
      some { link with status := LinkStatus.failed } := by
  unfold findLink at hl
  constructor
  · rw [verify_failed_eq pd r now oid n db hf]
    show (failLink r db.links).find? _ = _
    rw [find_failLink, hl]
    rfl
  · show (failLink pd.reference db.links).find? _ = _
    rw [hr, find_failLink, hl]
    rfl

/-- Witness for C3's amended theorem at the sample state. -/
theorem c3_witness :
    findLink "PAY-X" ((verifyPaymentTransaction (some { samplePd with status := "failed" })
        "PAY-X" 5 "o1" "N1" sampleDB).2) =
      some { sampleLink with status := LinkStatus.failed } ∧
    findLink "PAY-X" (handleFailedCharge { samplePd with status := "failed" } sampleDB) =
      some { sampleLink with status := LinkStatus.failed } :=
  c3_amended_failed_downgrades_completed "PAY-X" { samplePd with status := "failed" }
    5 "o1" "N1" sampleDB sampleLink (by rfl) rfl rfl rfl

/-- Counterexample state for C6: the sample link stored as expired. -/
def c6db : DB :=
  { products := [sampleProduct],
    links := [{ sampleLink with status := LinkStatus.expired }],
    orders := [] }

/-- C6 counterexample: a verify call in which the gateway reports success
moves the expired PAY-X link to completed, refuting that an expired link's
status never changes under gateway-driven transitions. -/
theorem c6_counterexample :
    (findLink "PAY-X" ((verifyPaymentTransaction (some samplePd) "PAY-X" 9 "o1" "N1" c6db).2)).map
        PaymentLink.status = some LinkStatus.completed :=
  rfl

/-- C6 amended: expired is not terminal for gateway-driven transitions — the
verify success path only guards against links already completed, so a
successful gateway report moves an expired link to completed and stamps
paidAt and verifiedAt. -/
theorem c6_amended_expired_not_terminal (r : String) (pd : PaymentData)
    (now : ℕ) (oid n : String) (db : DB) (link : PaymentLink)
    (hl : findLink r db = some link)
    (he : link.status = LinkStatus.expired)
    (hs : pd.status = "success") :
    findLink r ((verifyPaymentTransaction (some pd) r now oid n db).2) =
      some { link with status := LinkStatus.completed, paidAt := some now,
                       verifiedAt := some now } := by
  rw [verify_success_eq pd r now oid n db hs]
  show ((createOrderFromPaymentLink oid n r pd
      { db with links := markLinkCompleted r now db.links }).links).find? _ = _
  rw [createOrderFromPaymentLink_links]
  show (markLinkCompleted r now db.links).find? _ = _
  unfold findLink at hl
  rw [find_markLinkCompleted, hl]
  simp [he]

/-- Witness for C6's amended theorem at the expired sample state. -/
theorem c6_witness :
    findLink "PAY-X" ((verifyPaymentTransaction (some samplePd) "PAY-X" 9 "o1" "N1" c6db).2) =
      some { { sampleLink with status := LinkStatus.expired } with
             status := LinkStatus.completed, paidAt := some 9, verifiedAt := some 9 } :=
  c6_amended_expired_not_terminal "PAY-X" samplePd 9 "o1" "N1" c6db
    { sampleLink with status := LinkStatus.expired } (by rfl) rfl rfl

/-- C9: for an amount with at most two decimal places, the conversion to
minor units at link creation followed by the conversion back at verification
is the identity: round(a times 100) divided by 100 recovers a exactly. -/
theorem c9_amount_roundtrip (a : ℚ) (k : ℤ) (h : a = (k : ℚ) / 100) :
    koboToNaira (amountInKobo a) = a := by
  subst h
  unfold amountInKobo koboToNaira
  rw [div_mul_cancel₀ _ (by norm_num : (100 : ℚ) ≠ 0), round_intCast]

/-- Witness for C9 at the amount 123.45. -/
theorem c9_witness : koboToNaira (amountInKobo ((12345 : ℚ) / 100)) = (12345 : ℚ) / 100 :=
  c9_amount_roundtrip ((12345 : ℚ) / 100) 12345 (by norm_num)

theorem validateItems_sum (ps : List Product) (items : List CartItem) :
    ∀ vitems sub, validateItems ps items = some (vitems, sub) →
      sub = (vitems.map fun i => i.price * (i.quantity : ℚ)).sum := by
  induction items with
  | nil =>
    intro vitems sub h
    simp only [validateItems, Option.some.injEq, Prod.mk.injEq] at h
    rw [← h.1, ← h.2]
    simp
  | cons item rest ih =>
    intro vitems sub h
    simp only [validateItems] at h
    cases hf : findProduct item.productId ps with
    | none => rw [hf] at h; exact absurd h (by simp)
    | some product =>
      rw [hf] at h
      simp only at h
      split at h
      · exact absurd h (by simp)
      · cases hv : validateItems ps rest with
        | none => rw [hv] at h; exact absurd h (by simp)
        | some pr =>
          obtain ⟨vs, s⟩ := pr
          rw [hv] at h
          simp only [Option.some.injEq, Prod.mk.injEq] at h
          rw [← h.1, ← h.2, List.map_cons, List.sum_cons]
          rw [ih vs s hv]

/-- C4 counterexample: deriving an order from the sample product-backed link
of quantity 2 with the successful verification payload produces a persisted
order whose subtotal is not the sum of item price times quantity (the item
carries the full link amount as price while the subtotal is the verified
amount divided by 100 once more). -/
theorem c4_counterexample :
    ((createOrderFromPaymentLink "o1" "N1" "PAY-X" samplePd sampleDB).orders.map
      (fun o => (o.subtotal, (o.items.map fun i => i.price * (i.quantity : ℚ)).sum))) =
      [((100 : ℚ), (20000 : ℚ))] ∧ (100 : ℚ) ≠ (20000 : ℚ) := by
  constructor
  · norm_num [createOrderFromPaymentLink, findLink, findOrderByRef, findProduct, sampleDB,
      samplePd, sampleLink, sampleProduct, newLinkOrder, linkOrderItems, List.find?]
  · norm_num

/-- C4 amended: every order persisted by the store path satisfies both the
total split and the item-sum equation for the subtotal, computed from the
authoritative catalog prices; every order persisted by the payment-link path
satisfies the total split (total equals subtotal plus shipping, with shipping
zero), but its subtotal is the verified amount divided by 100 while each item
carries the full link amount as price, so the item-sum equation for the
subtotal does not hold there in general. -/
theorem c4_amended_totals (req : StoreOrderRequest) (oid n : String) (db : DB)
    (oid2 n2 r : String) (pd : PaymentData) (db2 : DB)
    (hinv : ∀ o ∈ db2.orders, o.total = o.subtotal + o.shipping) :
    (∀ o ∈ (createOrder req oid n db).2.orders, o ∈ db.orders ∨
        (o.total = o.subtotal + o.shipping ∧
         o.subtotal = (o.items.map fun i => i.price * (i.quantity : ℚ)).sum)) ∧
    (∀ o ∈ (createOrderFromPaymentLink oid2 n2 r pd db2).orders,
        o.total = o.subtotal + o.shipping) := by
  constructor
  · intro o ho
    unfold createOrder at ho
    split at ho
    · exact Or.inl ho
    · split at ho
      · exact Or.inl ho
      · cases hv : validateItems db.products req.items with
        | none => rw [hv] at ho; exact Or.inl ho
        | some pr =>
          obtain ⟨vitems, sub⟩ := pr
          rw [hv] at ho
          simp only at ho
          rcases List.mem_append.mp ho with hmem | hmem
          · exact Or.inl hmem
          · right
            rw [List.mem_singleton.mp hmem]
            exact ⟨rfl, validateItems_sum db.products req.items vitems sub hv⟩
  · intro o ho
    unfold createOrderFromPaymentLink at ho
    cases hfl : findLink r db2 with
    | none => rw [hfl] at ho; exact hinv o ho
    | some link =>
      rw [hfl] at ho
      cases hfo : findOrderByRef r db2 with
      | some existing =>
        rw [hfo] at ho
        simp only at ho
        split at ho
        · exact forall_mem_updateFirst
            (fun o => decide (o.paymentReference = some r))
            (fun o => { o with paymentStatus := PaymentStatus.paid,
                               status := OrderStatus.processing })
            db2.orders hinv (fun a ha => hinv a ha) o ho
        · exact hinv o ho
      | none =>
        rw [hfo] at ho
        simp only at ho
        rcases List.mem_append.mp ho with hmem | hmem
        · exact hinv o hmem
        · rw [List.mem_singleton.mp hmem]
          show pd.amount / 100 = pd.amount / 100 + 0
          rw [add_zero]

/-- Witness for C4's amended theorem: the order derived from the sample link
satisfies the total split. -/
theorem c4_witness :
    (newLinkOrder "o1" "N1" "PAY-X" samplePd sampleLink sampleDB.products).total =
      (newLinkOrder "o1" "N1" "PAY-X" samplePd sampleLink sampleDB.products).subtotal +
      (newLinkOrder "o1" "N1" "PAY-X" samplePd sampleLink sampleDB.products).shipping :=
  (c4_amended_totals
      { customerName := "Ada", customerEmail := "ada@shop.test", customerPhone := "1",
        customerAddress := none, items := [], shipping := 0, paymentMethod := "paystack",
        paymentReference := none, notes := none }
      "o9" "N9" sampleDB "o1" "N1" "PAY-X" samplePd sampleDB (by simp [sampleDB])).2
    (newLinkOrder "o1" "N1" "PAY-X" samplePd sampleLink sampleDB.products)
    (by exact List.mem_singleton.mpr rfl)

theorem markLinkCompleted_of_completed (r : String) (now : ℕ) (links : List PaymentLink)
    (link : PaymentLink) (h : links.find? (fun l => decide (l.reference = r)) = some link)
    (hc : link.status = LinkStatus.completed) :
    markLinkCompleted r now links = links := by
  unfold markLinkCompleted
  rw [h]
  simp [hc]

theorem find_applyLinkStock (link : PaymentLink) (pid : String) (ps : List Product)
    (product : Product) (hpid : link.productId = some pid)
    (hp : findProduct pid ps = some product) :
    findProduct pid (applyLinkStock link ps) =
      some { product with
        quantity := product.quantity - link.quantity,
        inStock := decide (0 < max 0 (product.quantity - link.quantity)),
        badge := if max 0 (product.quantity - link.quantity) ≤ 0
                 then some "SOLD OUT" else product.badge } := by
  unfold applyLinkStock
  rw [hpid]
  simp only
  rw [hp]
  simp only
  show (updateFirst _ _ ps).find? _ = _
  have hu := find?_updateFirst_pres (fun p => decide (p.id = pid))
    (fun p => { p with
      quantity := p.quantity - link.quantity,
      inStock := decide (0 < max 0 (product.quantity - link.quantity)),
      badge := if max 0 (product.quantity - link.quantity) ≤ 0
               then some "SOLD OUT" else product.badge }) (fun a => rfl) ps
  rw [hu]
  unfold findProduct at hp
  rw [hp]
  rfl

theorem c5_after_mark (r oid1 n1 oid2 n2 : String) (pd : PaymentData) (now2 : ℕ)
    (db1 : DB) (link1 : PaymentLink) (pid : String) (product : Product)
    (hs : pd.status = "success")
    (hl1 : findLink r db1 = some link1)
    (hc1 : link1.status = LinkStatus.completed)
    (hpid : link1.productId = some pid)
    (hprod : findProduct pid db1.products = some product)
    (hno : findOrderByRef r db1 = none) :
    (findProduct pid ((createOrderFromPaymentLink oid1 n1 r pd db1).products)).map
        Product.quantity = some (product.quantity - link1.quantity) ∧
    (verifyPaymentTransaction (some pd) r now2 oid2 n2
        (createOrderFromPaymentLink oid1 n1 r pd db1)).2 =
      createOrderFromPaymentLink oid1 n1 r pd db1 := by
  have hcr := createOrderFromPaymentLink_creates oid1 n1 r pd db1 link1 hl1 hno
  constructor
  · rw [hcr]
    show (findProduct pid (applyLinkStock link1 db1.products)).map Product.quantity = _
    rw [find_applyLinkStock link1 pid db1.products product hpid hprod]
    rfl
  · have hfo2 : findOrderByRef r (createOrderFromPaymentLink oid1 n1 r pd db1) =
        some (newLinkOrder oid1 n1 r pd link1 db1.products) := by
      rw [hcr]
      show (db1.orders ++ [newLinkOrder oid1 n1 r pd link1 db1.products]).find? _ = _
      rw [find?_append_of_none _ _ _ hno]
      simp [newLinkOrder]
    have hl2 : (createOrderFromPaymentLink oid1 n1 r pd db1).links.find?
        (fun l => decide (l.reference = r)) = some link1 := by
      rw [createOrderFromPaymentLink_links]
      exact hl1
    rw [verify_success_eq pd r now2 oid2 n2 _ hs]
    have hml2 : markLinkCompleted r now2 (createOrderFromPaymentLink oid1 n1 r pd db1).links =
        (createOrderFromPaymentLink oid1 n1 r pd db1).links :=
      markLinkCompleted_of_completed r now2 _ link1 hl2 hc1
    show createOrderFromPaymentLink oid2 n2 r pd
        { createOrderFromPaymentLink oid1 n1 r pd db1 with
          links := markLinkCompleted r now2 (createOrderFromPaymentLink oid1 n1 r pd db1).links } = _
    rw [hml2]
    exact createOrderFromPaymentLink_of_paid oid2 n2 r pd _ _ hfo2 rfl

/-- C5: for a product-backed link with stored quantity q and no existing
order for its reference, a successful verify call decrements the referenced
product's stored quantity by exactly q, and a second successful verify call
for the same reference leaves the whole state unchanged (the existing-order
guard fires), so the decrement happens exactly once across duplicate calls. -/
theorem c5_stock_decrement_once (r oid1 n1 oid2 n2 : String) (pd : PaymentData)
    (now1 now2 : ℕ) (db : DB) (link : PaymentLink) (pid : String) (product : Product)
    (hs : pd.status = "success")
    (hl : findLink r db = some link)
    (hpid : link.productId = some pid)
    (hprod : findProduct pid db.products = some product)
    (hno : findOrderByRef r db = none) :
    (findProduct pid ((verifyPaymentTransaction (some pd) r now1 oid1 n1 db).2).products).map
        Product.quantity = some (product.quantity - link.quantity) ∧
    (verifyPaymentTransaction (some pd) r now2 oid2 n2
        ((verifyPaymentTransaction (some pd) r now1 oid1 n1 db).2)).2 =
      (verifyPaymentTransaction (some pd) r now1 oid1 n1 db).2 := by
  rw [verify_success_eq pd r now1 oid1 n1 db hs]
  unfold findLink at hl
  by_cases hc : link.status = LinkStatus.completed
  · have hml : markLinkCompleted r now1 db.links = db.links :=
      markLinkCompleted_of_completed r now1 db.links link hl hc
    have hdb1 : { db with links := markLinkCompleted r now1 db.links } = db := by
      rw [hml]
    rw [hdb1]
    exact c5_after_mark r oid1 n1 oid2 n2 pd now2 db link pid product hs hl hc hpid hprod hno
  · have h1 : findLink r { db with links := markLinkCompleted r now1 db.links } =
        some { link with status := LinkStatus.completed, paidAt := some now1,
                         verifiedAt := some now1 } := by
      show (markLinkCompleted r now1 db.links).find? _ = _
      rw [find_markLinkCompleted, hl]
      simp [hc]
    exact c5_after_mark r oid1 n1 oid2 n2 pd now2
      { db with links := markLinkCompleted r now1 db.links }
      { link with status := LinkStatus.completed, paidAt := some now1,
                  verifiedAt := some now1 }
      pid product hs h1 rfl hpid hprod hno

/-- Witness for C5 at the sample state: the stock of product p1 drops from 10
by the link quantity 2 on the first verify, and a repeat verify is a no-op. -/
theorem c5_witness :
    (findProduct "p1" ((verifyPaymentTransaction (some samplePd) "PAY-X" 1 "o1" "N1" sampleDB).2).products).map
        Product.quantity = some (sampleProduct.quantity - sampleLink.quantity) ∧
    (verifyPaymentTransaction (some samplePd) "PAY-X" 2 "o2" "N2"
        ((verifyPaymentTransaction (some samplePd) "PAY-X" 1 "o1" "N1" sampleDB).2)).2 =
      (verifyPaymentTransaction (some samplePd) "PAY-X" 1 "o1" "N1" sampleDB).2 :=
  c5_stock_decrement_once "PAY-X" "o1" "N1" "o2" "N2" samplePd 1 2 sampleDB sampleLink
    "p1" sampleProduct rfl (by rfl) rfl (by rfl) (by rfl)

theorem find_restoreAllStock_not_mem (pid : String) (items : List OrderItem)
    (ps : List Product) (h : pid ∉ items.map OrderItem.productId) :
    findProduct pid (restoreAllStock items ps) = findProduct pid ps := by
  induction items generalizing ps with
  | nil => rfl
  | cons item rest ih =>
    have h1 : pid ≠ item.productId := by
      intro he
      exact h (by rw [List.map_cons, he]; exact List.mem_cons_self _ _)
    have h2 : pid ∉ rest.map OrderItem.productId := by
      intro hm
      exact h (by rw [List.map_cons]; exact List.mem_cons_of_mem _ hm)
    show findProduct pid (restoreAllStock rest (restoreProductStock item ps)) = _
    rw [ih (restoreProductStock item ps) h2]
    unfold restoreProductStock findProduct
    exact find?_updateFirst_of_ne
      (fun p => decide (p.id = item.productId))
      (fun p => decide (p.id = pid))
      (fun p => { p with quantity := p.quantity + item.quantity, inStock := true,
                         badge := if p.badge = some "SOLD OUT" then none else p.badge })
      (fun a => rfl)
      (fun a ha => by
        have hid : a.id = item.productId := by simpa using ha
        show decide (a.id = pid) = false
        rw [hid]
        exact decide_eq_false (Ne.symm h1)) ps

theorem find_restoreProductStock_self (item : OrderItem) (ps : List Product) :
    findProduct item.productId (restoreProductStock item ps) =
      (findProduct item.productId ps).map
        (fun p => { p with
          quantity := p.quantity + item.quantity,
          inStock := true,
          badge := if p.badge = some "SOLD OUT" then none else p.badge }) := by
  unfold restoreProductStock findProduct
  exact find?_updateFirst_pres (fun p => decide (p.id = item.productId))
    (fun p => { p with
      quantity := p.quantity + item.quantity,
      inStock := true,
      badge := if p.badge = some "SOLD OUT" then none else p.badge })
    (fun a => rfl) ps

theorem restoreAllStock_effect (items : List OrderItem) (ps : List Product)
    (hnd : (items.map OrderItem.productId).Nodup) :
    ∀ item ∈ items, ∀ p, findProduct item.productId ps = some p →
      findProduct item.productId (restoreAllStock items ps) =
        some { p with quantity := p.quantity + item.quantity, inStock := true,
                      badge := if p.badge = some "SOLD OUT" then none else p.badge } := by
  intro item hmem p hp
  obtain ⟨s, t, rfl⟩ := List.append_of_mem hmem
  rw [List.map_append, List.map_cons] at hnd
  obtain ⟨hnds, hndc, hdisj⟩ := List.nodup_append.mp hnd
  have hns : item.productId ∉ s.map OrderItem.productId := by
    intro hmem'
    exact hdisj hmem' (List.mem_cons_self _ _)
  have hnt : item.productId ∉ t.map OrderItem.productId := (List.nodup_cons.mp hndc).1
  unfold restoreAllStock
  rw [List.foldl_append, List.foldl_cons]
  show findProduct item.productId
      (restoreAllStock t (restoreProductStock item (restoreAllStock s ps))) = _
  rw [find_restoreAllStock_not_mem _ _ _ hnt, find_restoreProductStock_self,
    find_restoreAllStock_not_mem _ _ _ hns, hp]
  rfl

/-- C8: cancelOrder rejects an order whose status is completed or cancelled
with a 400 and no state change; otherwise it responds 200, sets the order's
status to cancelled, and for every item (over pairwise-distinct product ids)
whose product still exists it raises that product's quantity by the item
quantity, forces inStock true, and clears a SOLD OUT badge. -/
theorem c8_cancelOrder (orderId : String) (db : DB) (order : Order)
    (hfind : db.orders.find? (fun o => decide (o.id = orderId)) = some order)
    (hnd : (order.items.map OrderItem.productId).Nodup) :
    ((order.status = OrderStatus.completed ∨ order.status = OrderStatus.cancelled) →
      cancelOrder orderId db = (400, db)) ∧
    (order.status ≠ OrderStatus.completed → order.status ≠ OrderStatus.cancelled →
      ((cancelOrder orderId db).1 = 200 ∧
       (cancelOrder orderId db).2.orders.find? (fun o => decide (o.id = orderId)) =
         some { order with status := OrderStatus.cancelled } ∧
       (∀ item ∈ order.items, ∀ p, findProduct item.productId db.products = some p →
         findProduct item.productId (cancelOrder orderId db).2.products =
           some { p with quantity := p.quantity + item.quantity, inStock := true,
                         badge := if p.badge = some "SOLD OUT" then none else p.badge }))) := by
  constructor
  · intro h
    unfold cancelOrder
    rw [hfind]
    simp [h]
  · intro h1 h2
    have hcan : cancelOrder orderId db = (200, { db with
        products := restoreAllStock order.items db.products,
        orders := (updateFirst (fun o => decide (o.id = orderId))
          (fun o => { o with status := OrderStatus.cancelled }) db.orders) }) := by
      unfold cancelOrder
      rw [hfind]
      simp only
      rw [if_neg (by simp [h1, h2])]
    rw [hcan]
    refine ⟨rfl, ?_, ?_⟩
    · show (updateFirst _ _ db.orders).find? _ = _
      have hu := find?_updateFirst_pres (fun o => decide (o.id = orderId))
        (fun o => { o with status := OrderStatus.cancelled }) (fun a => rfl) db.orders
      rw [hu, hfind]
      rfl
    · intro item hmem p hp
      show findProduct item.productId (restoreAllStock order.items db.products) = _
      exact restoreAllStock_effect order.items db.products hnd item hmem p hp

/-- Sold-out product for the C8 witness state. -/
def c8product : Product :=
  { id := "p1", name := "Shirt", price := 5000, image := some "img",
    inStock := false, quantity := 0, badge := some "SOLD OUT" }

/-- Item of the C8 witness order, two units of product p1. -/
def c8item : OrderItem :=
  { productId := "p1", name := "Shirt", price := 5000, quantity := 2,
    image := none, color := none, size := none }

/-- Processing order for the C8 witness state. -/
def c8order : Order :=
  { id := "ord1", orderNumber := "N8", orderType := "store",
    customerName := "Ada", customerEmail := "ada@shop.test", customerPhone := "1",
    customerAddress := none, items := [c8item], subtotal := 10000, shipping := 0,
    total := 10000, paymentMethod := "paystack", paymentReference := none,
    paymentStatus := PaymentStatus.paid, status := OrderStatus.processing,
    notes := none }

/-- State for the C8 witness: a sold-out product and a processing order. -/
def c8db : DB :=
  { products := [c8product], links := [], orders := [c8order] }

/-- Witness for C8: cancelling the processing sample order succeeds, marks it
cancelled, restores the sold-out product's stock and clears its badge. -/
theorem c8_witness :
    (cancelOrder "ord1" c8db).1 = 200 ∧
    (cancelOrder "ord1" c8db).2.orders.find? (fun o => decide (o.id = "ord1")) =
      some { c8order with status := OrderStatus.cancelled } ∧
    findProduct "p1" (cancelOrder "ord1" c8db).2.products =
      some { c8product with quantity := c8product.quantity + c8item.quantity,
                            inStock := true,
                            badge := if c8product.badge = some "SOLD OUT" then none
                                     else c8product.badge } := by
  have h := (c8_cancelOrder "ord1" c8db c8order (by rfl) (by decide)).2
    (by decide) (by decide)
  exact ⟨h.1, h.2.1, h.2.2 c8item (by exact List.mem_singleton.mpr rfl) c8product (by rfl)⟩

end Nevelline
